import Mathlib

/-!
# Verification of the github-pg-query core against its specification

Shallow embedding of the Rust sources of `that-in-rust/room-of-requirement`
(a GitHub search → PostgreSQL persistence tool).  Each definition mirrors a
function of the source tree:

* `src/errors.rs`   — the `AppError` sum type and its `Display` messages;
* `src/models.rs`   — `Repository` / `RepositoryOwner` / `RepositoryLicense`
  with their `validate` routines, and `QueryMetadata`;
* `src/database.rs` — `insert_repositories`, `get_table_stats`, `drop_table`
  over an explicit table state (a list of rows keyed by `github_id`);
* `src/github.rs`   — `GitHubClient::new`, the retry/backoff loop of
  `search_repositories_with_config`, `extract_rate_limit_reset`,
  `extract_validation_error`;
* `src/main.rs`     — the search-failure branch of `execute_search_workflow`.

Machine integers (`i64`, `u32`, `u64`) are carried as `Int`/`Nat`: none of
the verified paths can overflow them.  Timestamps (`DateTime<Utc>`) are Unix
seconds as `Int`.  The `f64` backoff multiplier is carried as its exact
rational value (every finite `f64` is a rational), and the backoff update's
`u64 → f64` cast, `f64` multiply and saturating `f64 → u64` cast are
modelled bit-faithfully, with round-to-nearest-ties-to-even at 53
significand bits (`rustF64MulToU64`).  Effects are passed explicitly:
"now", generated UUIDs, and HTTP responses are parameters, and SQL execution
inside a transaction is modelled by state passing with commit/rollback made
explicit.
-/

/-! ## `src/errors.rs` -/

/-- Model of `sqlx::Error` as the persister observes it: the code only ever
constructs `sqlx::Error::RowNotFound` itself (database.rs line 361); every
other driver failure is opaque and carried as its display text. -/
inductive SqlxError where
  | rowNotFound
  | other (message : String)
deriving DecidableEq, Repr

/-- Display text of the modelled `sqlx::Error` values (sqlx's own
`RowNotFound` message, used by `AppError`'s `Display` derivation). -/
def SqlxError.toMessage : SqlxError → String
  | .rowNotFound => "no rows returned by a query that expected to return at least one row"
  | .other message => message

/-- The error hierarchy of `src/errors.rs` (`enum AppError`), one constructor
per variant, each carrying the same data as the Rust variant.  The Rust
`Database` variant wraps `sqlx::Error`; `Http`/`Json`/`Io` wrap foreign error
types and are carried as their display text.  Note there is no `NotFound`
variant in the source. -/
inductive AppError where
  | GitHubApi (message : String)
  | RateLimit (reset_time : String)
  | Authentication (reason : String)
  | InvalidQuery (query : String) (reason : String)
  | Database (inner : SqlxError)
  | TableCreation (table_name : String) (reason : String)
  | Validation (field : String) (reason : String)
  | Http (message : String)
  | Json (message : String)
  | Environment (var_name : String)
  | Configuration (message : String)
  | Io (message : String)
  | Timeout (timeout_seconds : Nat)
  | Internal (message : String)
deriving DecidableEq, Repr

/-- The `thiserror`-derived `Display` for `AppError` (the `#[error("...")]`
format strings of `src/errors.rs`). -/
def AppError.toMessage : AppError → String
  | .GitHubApi message => "GitHub API error: " ++ message
  | .RateLimit reset_time => "GitHub API rate limit exceeded: " ++ reset_time
  | .Authentication reason => "GitHub API authentication failed: " ++ reason
  | .InvalidQuery query reason => "Invalid GitHub search query: " ++ query ++ " - " ++ reason
  | .Database inner => "Database connection error: " ++ inner.toMessage
  | .TableCreation table_name reason =>
      "Database table creation failed: " ++ table_name ++ " - " ++ reason
  | .Validation field reason =>
      "Repository data validation failed: " ++ field ++ " - " ++ reason
  | .Http message => "HTTP request failed: " ++ message
  | .Json message => "JSON serialization/deserialization error: " ++ message
  | .Environment var_name => "Environment variable missing or invalid: " ++ var_name
  | .Configuration message => "Configuration error: " ++ message
  | .Io message => "IO error: " ++ message
  | .Timeout timeout_seconds =>
      "Timeout error: operation took longer than " ++ toString timeout_seconds ++ " seconds"
  | .Internal message => "Internal error: " ++ message

/-- Kind discriminator: is this error the `Validation` variant? -/
def AppError.isValidation : AppError → Bool
  | .Validation _ _ => true
  | _ => false

/-- Kind discriminator: is this error the generic `Database` variant? -/
def AppError.isDatabase : AppError → Bool
  | .Database _ => true
  | _ => false

instance {ε α : Type} [DecidableEq ε] [DecidableEq α] : DecidableEq (Except ε α) := fun x y =>
  match x, y with
  | .ok a, .ok b => if h : a = b then .isTrue (by rw [h]) else .isFalse (by simp [h])
  | .error a, .error b => if h : a = b then .isTrue (by rw [h]) else .isFalse (by simp [h])
  | .ok _, .error _ => .isFalse (by simp)
  | .error _, .ok _ => .isFalse (by simp)

/-! ## `src/models.rs` -/

/-- `RepositoryOwner` of `src/models.rs` (timestamp-free; `id` is `i64`). -/
structure RepositoryOwner where
  id : Int
  login : String
  owner_type : String
  avatar_url : String
  html_url : String
  site_admin : Bool
deriving DecidableEq, Repr

/-- `RepositoryLicense` of `src/models.rs`. -/
structure RepositoryLicense where
  key : String
  name : String
  spdx_id : Option String
  url : Option String
deriving DecidableEq, Repr

/-- `Repository` of `src/models.rs`.  `DateTime<Utc>` fields are Unix seconds
as `Int`.  The Rust field `private` is a Lean keyword and is carried here as
`isPrivate`; all other field names are the source's. -/
structure Repository where
  id : Int
  full_name : String
  name : String
  description : Option String
  html_url : String
  clone_url : String
  ssh_url : String
  size : Int
  stargazers_count : Int
  watchers_count : Int
  forks_count : Int
  open_issues_count : Int
  language : Option String
  default_branch : String
  visibility : String
  isPrivate : Bool
  fork : Bool
  archived : Bool
  disabled : Bool
  created_at : Int
  updated_at : Int
  pushed_at : Option Int
  owner : RepositoryOwner
  license : Option RepositoryLicense
  topics : List String
  has_issues : Bool
  has_projects : Bool
  has_wiki : Bool
  has_pages : Bool
  has_downloads : Bool
deriving DecidableEq, Repr

/-- `SearchResponse` of `src/models.rs`. -/
structure SearchResponse where
  total_count : Int
  incomplete_results : Bool
  items : List Repository
deriving DecidableEq, Repr

/-- `QueryMetadata` of `src/models.rs`; the `uuid::Uuid` id is carried as an
abstract `Nat`, `executed_at` as Unix seconds. -/
structure QueryMetadata where
  id : Nat
  search_query : String
  table_name : String
  result_count : Int
  executed_at : Int
  duration_ms : Int
  success : Bool
  error_message : Option String
deriving DecidableEq, Repr

/-- Rust's `str::starts_with(p)`, computed on the character list (the
kernel-computable view of a `String`; `String.startsWith` itself does not
reduce). -/
def strStartsWith (s p : String) : Bool :=
  p.toList.isPrefixOf s.toList

/-- Rust's `str::ends_with(p)`, computed on the character list. -/
def strEndsWith (s p : String) : Bool :=
  p.toList.isSuffixOf s.toList

/-- One early-return validation check of the Rust sources:
`if cond { return Err(AppError::validation(field, reason)); }` followed by
the rest of the routine. -/
def vcheck (cond : Bool) (field reason : String) (rest : Except AppError Unit) :
    Except AppError Unit :=
  if cond then .error (.Validation field reason) else rest

/-- `RepositoryOwner::validate` (models.rs lines 272-298): the exact chain of
early-return checks of the source, first failure wins. -/
def RepositoryOwner.validate (self : RepositoryOwner) : Except AppError Unit :=
  vcheck self.login.isEmpty "owner.login" "cannot be empty" <|
  vcheck self.avatar_url.isEmpty "owner.avatar_url" "cannot be empty" <|
  vcheck self.html_url.isEmpty "owner.html_url" "cannot be empty" <|
  vcheck (!(["User", "Organization", "Bot"].contains self.owner_type))
    "owner.type" "must be 'User', 'Organization', or 'Bot'" <|
  vcheck (!(strStartsWith self.html_url "https://github.com/"))
    "owner.html_url" "must be a valid GitHub URL" <|
  .ok ()

/-- `RepositoryLicense::validate` (models.rs lines 300-313). -/
def RepositoryLicense.validate (self : RepositoryLicense) : Except AppError Unit :=
  vcheck self.key.isEmpty "license.key" "cannot be empty" <|
  vcheck self.name.isEmpty "license.name" "cannot be empty" <|
  .ok ()

/-- `Repository::validate` (models.rs lines 179-259): the source's sequence of
early-return checks, then owner validation, then license validation when a
license is present. -/
def Repository.validate (self : Repository) : Except AppError Unit :=
  vcheck self.full_name.isEmpty "full_name" "cannot be empty" <|
  vcheck self.name.isEmpty "name" "cannot be empty" <|
  vcheck self.html_url.isEmpty "html_url" "cannot be empty" <|
  vcheck self.clone_url.isEmpty "clone_url" "cannot be empty" <|
  vcheck self.ssh_url.isEmpty "ssh_url" "cannot be empty" <|
  vcheck self.default_branch.isEmpty "default_branch" "cannot be empty" <|
  vcheck self.visibility.isEmpty "visibility" "cannot be empty" <|
  vcheck (!(strStartsWith self.html_url "https://github.com/"))
    "html_url" "must be a valid GitHub URL" <|
  vcheck (!(strStartsWith self.clone_url "https://github.com/")
      || !(strEndsWith self.clone_url ".git"))
    "clone_url" "must be a valid GitHub clone URL" <|
  vcheck (!(strStartsWith self.ssh_url "git@github.com:")
      || !(strEndsWith self.ssh_url ".git"))
    "ssh_url" "must be a valid GitHub SSH URL" <|
  vcheck (!(["public", "private", "internal"].contains self.visibility))
    "visibility" "must be 'public', 'private', or 'internal'" <|
  vcheck (decide (self.size < 0)) "size" "cannot be negative" <|
  vcheck (decide (self.stargazers_count < 0)) "stargazers_count" "cannot be negative" <|
  vcheck (decide (self.watchers_count < 0)) "watchers_count" "cannot be negative" <|
  vcheck (decide (self.forks_count < 0)) "forks_count" "cannot be negative" <|
  vcheck (decide (self.open_issues_count < 0)) "open_issues_count" "cannot be negative" <|
  match self.owner.validate with
  | .error e => .error e
  | .ok _ =>
    match self.license with
    | some license =>
      match license.validate with
      | .error e => .error e
      | .ok _ => .ok ()
    | none => .ok ()

/-- `QueryMetadata::new` (models.rs lines 316-328); the effectful
`Uuid::new_v4()` and `Utc::now()` are passed in explicitly. -/
def QueryMetadata.new (search_query table_name : String) (fresh_id : Nat) (now : Int) :
    QueryMetadata where
  id := fresh_id
  search_query := search_query
  table_name := table_name
  result_count := 0
  executed_at := now
  duration_ms := 0
  success := false
  error_message := none

/-- `QueryMetadata::mark_success` (models.rs lines 330-336). -/
def QueryMetadata.mark_success (self : QueryMetadata) (result_count duration_ms : Int) :
    QueryMetadata :=
  { self with
    result_count := result_count
    duration_ms := duration_ms
    success := true
    error_message := none }

/-- `QueryMetadata.mark_failure` (models.rs lines 338-343): `&mut self`
mutation modelled as a functional update. -/
def QueryMetadata.mark_failure (self : QueryMetadata) (error_message : String)
    (duration_ms : Int) : QueryMetadata :=
  { self with
    duration_ms := duration_ms
    success := false
    error_message := some error_message }

/-! ## `src/database.rs`

A repository table (schema of `create_repository_table`, database.rs lines
77-150) is a list of rows in insertion order; the `SERIAL` surrogate key is
not observable through any verified operation and is omitted.  `fetched_at`
(server-side `NOW()`) is the `now` parameter of each write. -/

/-- One row of a managed `repos_*` table: the columns of
`create_repository_table`, with nested owner/license flattened exactly as in
the DDL (database.rs lines 81-122). -/
structure RepoRow where
  github_id : Int
  full_name : String
  name : String
  description : Option String
  html_url : String
  clone_url : String
  ssh_url : String
  size_kb : Int
  stargazers_count : Int
  watchers_count : Int
  forks_count : Int
  open_issues_count : Int
  language : Option String
  default_branch : String
  visibility : String
  isPrivate : Bool
  fork : Bool
  archived : Bool
  disabled : Bool
  created_at : Int
  updated_at : Int
  pushed_at : Option Int
  owner_id : Int
  owner_login : String
  owner_type : String
  owner_avatar_url : String
  owner_html_url : String
  owner_site_admin : Bool
  license_key : Option String
  license_name : Option String
  license_spdx_id : Option String
  license_url : Option String
  topics : List String
  has_issues : Bool
  has_projects : Bool
  has_wiki : Bool
  has_pages : Bool
  has_downloads : Bool
  fetched_at : Int
deriving DecidableEq, Repr

/-- The row a fresh `INSERT` writes: the bind list of `insert_repositories`
(database.rs lines 228-266), with `fetched_at` defaulting to `NOW()`. -/
def rowOfRepo (now : Int) (repo : Repository) : RepoRow where
  github_id := repo.id
  full_name := repo.full_name
  name := repo.name
  description := repo.description
  html_url := repo.html_url
  clone_url := repo.clone_url
  ssh_url := repo.ssh_url
  size_kb := repo.size
  stargazers_count := repo.stargazers_count
  watchers_count := repo.watchers_count
  forks_count := repo.forks_count
  open_issues_count := repo.open_issues_count
  language := repo.language
  default_branch := repo.default_branch
  visibility := repo.visibility
  isPrivate := repo.isPrivate
  fork := repo.fork
  archived := repo.archived
  disabled := repo.disabled
  created_at := repo.created_at
  updated_at := repo.updated_at
  pushed_at := repo.pushed_at
  owner_id := repo.owner.id
  owner_login := repo.owner.login
  owner_type := repo.owner.owner_type
  owner_avatar_url := repo.owner.avatar_url
  owner_html_url := repo.owner.html_url
  owner_site_admin := repo.owner.site_admin
  license_key := repo.license.map (·.key)
  license_name := repo.license.map (·.name)
  license_spdx_id := (repo.license.map (·.spdx_id)).join
  license_url := (repo.license.map (·.url)).join
  topics := repo.topics
  has_issues := repo.has_issues
  has_projects := repo.has_projects
  has_wiki := repo.has_wiki
  has_pages := repo.has_pages
  has_downloads := repo.has_downloads
  fetched_at := now

/-- The `ON CONFLICT (github_id) DO UPDATE SET` column list (database.rs lines
187-223): every mutable column is refreshed from the excluded row and
`fetched_at` from `NOW()`; `github_id`, `created_at` and `owner_id` are not in
the SET list and keep the stored row's values. -/
def updateRowOnConflict (now : Int) (repo : Repository) (row : RepoRow) : RepoRow :=
  { row with
    full_name := repo.full_name
    name := repo.name
    description := repo.description
    html_url := repo.html_url
    clone_url := repo.clone_url
    ssh_url := repo.ssh_url
    size_kb := repo.size
    stargazers_count := repo.stargazers_count
    watchers_count := repo.watchers_count
    forks_count := repo.forks_count
    open_issues_count := repo.open_issues_count
    language := repo.language
    default_branch := repo.default_branch
    visibility := repo.visibility
    isPrivate := repo.isPrivate
    fork := repo.fork
    archived := repo.archived
    disabled := repo.disabled
    updated_at := repo.updated_at
    pushed_at := repo.pushed_at
    owner_login := repo.owner.login
    owner_type := repo.owner.owner_type
    owner_avatar_url := repo.owner.avatar_url
    owner_html_url := repo.owner.html_url
    owner_site_admin := repo.owner.site_admin
    license_key := repo.license.map (·.key)
    license_name := repo.license.map (·.name)
    license_spdx_id := (repo.license.map (·.spdx_id)).join
    license_url := (repo.license.map (·.url)).join
    topics := repo.topics
    has_issues := repo.has_issues
    has_projects := repo.has_projects
    has_wiki := repo.has_wiki
    has_pages := repo.has_pages
    has_downloads := repo.has_downloads
    fetched_at := now }

/-- Effect of one `INSERT ... ON CONFLICT (github_id) DO UPDATE` statement on
the table state: update in place when a row with the natural id exists,
append otherwise.  PostgreSQL reports 1 affected row in either case. -/
def applyUpsert (now : Int) (repo : Repository) (rows : List RepoRow) : List RepoRow :=
  if rows.any (fun row => row.github_id == repo.id) then
    rows.map (fun row => if row.github_id == repo.id then updateRowOnConflict now repo row else row)
  else
    rows ++ [rowOfRepo now repo]

/-- The per-record loop of `insert_repositories` (database.rs lines 167-271)
running against the transaction's working state `tx`: validate, then execute
the upsert and add its affected-row count (always 1).  The first validation
failure aborts with that error. -/
def insertLoop (now : Int) (tx : List RepoRow) (inserted_count : Int) :
    List Repository → Except AppError (List RepoRow × Int)
  | [] => .ok (tx, inserted_count)
  | repo :: rest =>
    match repo.validate with
    | .error e => .error e
    | .ok _ => insertLoop now (applyUpsert now repo tx) (inserted_count + 1) rest

/-- `DatabaseManager::insert_repositories` (database.rs lines 153-275).
Returns the table state visible after the call together with the call's
result: an empty batch short-circuits to 0; otherwise the loop runs in a
transaction that is committed only when every record validated and wrote, and
any error leaves the stored table unchanged (the dropped transaction rolls
back). -/
def insert_repositories (now : Int) (table : List RepoRow) (repositories : List Repository) :
    List RepoRow × Except AppError Int :=
  if repositories.isEmpty then
    (table, .ok 0)
  else
    match insertLoop now table 0 repositories with
    | .ok (tx, inserted_count) => (tx, .ok inserted_count)
    | .error e => (table, .error e)

/-- `TableStats` of `src/database.rs` (lines 431-441); `avg_stars` is `f64`
in the source and carried as `ℚ` (PostgreSQL computes `AVG` over `bigint`
exactly, as `numeric`). -/
structure TableStats where
  table_name : String
  total_repositories : Int
  unique_languages : Int
  unique_owners : Int
  avg_stars : ℚ
  max_stars : Int
  oldest_repo : Option Int
  newest_repo : Option Int
deriving DecidableEq, Repr

/-- The aggregate query of `get_table_stats` (database.rs lines 364-390).
`COUNT(DISTINCT language)` skips SQL NULLs, hence the `filterMap`;
`AVG` of an empty table is NULL and the code's `unwrap_or(0.0)` maps it to 0.
`MAX`/`MIN` of an empty table are NULL: the source's non-optional
`row.get::<i64>("max_stars")` would fail at runtime there, an unreachable
case for the claims verified here, modelled as 0. -/
def computeStats (table_name : String) (rows : List RepoRow) : TableStats where
  table_name := table_name
  total_repositories := rows.length
  unique_languages := (rows.filterMap (·.language)).dedup.length
  unique_owners := (rows.map (·.owner_login)).dedup.length
  avg_stars :=
    if rows.isEmpty then 0
    else ((rows.map (·.stargazers_count)).sum : ℚ) / (rows.length : ℚ)
  max_stars := ((rows.map (·.stargazers_count)).max?).getD 0
  oldest_repo := (rows.map (·.created_at)).min?
  newest_repo := (rows.map (·.created_at)).max?

/-- The database is the collection of existing repository tables, each a
named list of rows. -/
abbrev DatabaseState := List (String × List RepoRow)

/-- The `information_schema.tables` existence probe of `get_table_stats`
(database.rs lines 347-358), returning the stored rows when the table
exists. -/
def tableLookup (db : DatabaseState) (table_name : String) : Option (List RepoRow) :=
  (List.find? (fun t => t.1 == table_name) db).map (·.2)

/-- `DatabaseManager::get_table_stats` (database.rs lines 345-391): a distinct
existence check first; an absent table yields
`AppError::Database(sqlx::Error::RowNotFound)` — the generic `Database`
variant, as the source has no dedicated `NotFound` error kind — and only an
existing table reaches the aggregate query. -/
def get_table_stats (db : DatabaseState) (table_name : String) : Except AppError TableStats :=
  match tableLookup db table_name with
  | none => .error (.Database .rowNotFound)
  | some rows => .ok (computeStats table_name rows)

/-- Rust's Unicode-aware `char::is_alphanumeric`: below code point 128 it
coincides exactly with ASCII alphanumerity (`Char.isAlphanum`); beyond ASCII
it consults the Unicode Alphabetic and Number tables, which are abstracted
here as the oracle `uniAlnum`.  Theorems quantify over every oracle, so what
is proved holds however those tables classify non-ASCII characters — in
particular for the real tables. -/
def rustIsAlphanumeric (uniAlnum : Char → Bool) (c : Char) : Bool :=
  if c.val < 128 then c.isAlphanum else uniAlnum c

/-- `DatabaseManager::drop_table` (database.rs lines 413-422).  The result's
first component is the list of SQL statements issued: a name failing the
allow-list check is rejected with a `Validation` error before any SQL exists.
`uniAlnum` is the non-ASCII part of `char::is_alphanumeric`'s Unicode
tables (see `rustIsAlphanumeric`). -/
def drop_table (uniAlnum : Char → Bool) (db : DatabaseState) (table_name : String) :
    List String × Except AppError DatabaseState :=
  if !(strStartsWith table_name "repos_")
      || !(table_name.toList.all fun c => rustIsAlphanumeric uniAlnum c || c == '_') then
    ([], .error (.Validation "table_name" "Invalid table name format"))
  else
    (["DROP TABLE IF EXISTS " ++ table_name],
      .ok (List.filter (fun t => t.1 != table_name) db))

/-! ## `src/github.rs` -/

/-- `RateLimitConfig` (github.rs lines 19-29); the `f64` multiplier is
carried as `ℚ`. -/
structure RateLimitConfig where
  max_retries : Nat
  initial_backoff_ms : Nat
  max_backoff_ms : Nat
  backoff_multiplier : ℚ
deriving DecidableEq, Repr

/-- `RateLimitConfig::default` (github.rs lines 31-40). -/
def RateLimitConfig.default : RateLimitConfig where
  max_retries := 3
  initial_backoff_ms := 1000
  max_backoff_ms := 60000
  backoff_multiplier := 2

/-- `GitHubClient` (github.rs lines 11-16).  The wrapped `reqwest::Client`
carries no state any verified operation observes (a 30-second per-request
timeout and a user-agent string); it is omitted, and building it is modelled
as succeeding. -/
structure GitHubClient where
  token : String
  base_url : String
deriving DecidableEq, Repr

/-- `GitHubClient::new` (github.rs lines 50-66): an empty token fails with an
`Authentication` error before the HTTP client is built; otherwise the client
is constructed with the default base URL. -/
def GitHubClient.new (token : String) : Except AppError GitHubClient :=
  if token.isEmpty then
    .error (.Authentication "GitHub token cannot be empty")
  else
    .ok { token := token, base_url := "https://api.github.com" }

/-- `GitHubClient::with_base_url` (github.rs lines 69-73). -/
def GitHubClient.with_base_url (token base_url : String) : Except AppError GitHubClient :=
  match GitHubClient.new token with
  | .error e => .error e
  | .ok client => .ok { client with base_url := base_url }

/-- Rust's `str::parse::<i64>`: an optional sign followed by one or more
ASCII digits, rejecting any other character and any value outside
`[-2^63, 2^63 - 1]`. -/
def parseI64 (s : String) : Option Int :=
  let chars := s.toList
  let signAndDigits : Int × List Char :=
    match chars with
    | '+' :: rest => (1, rest)
    | '-' :: rest => (-1, rest)
    | rest => (1, rest)
  let sign := signAndDigits.1
  let digits := signAndDigits.2
  if digits.isEmpty then none
  else if !(digits.all Char.isDigit) then none
  else
    let magnitude : Nat := digits.foldl (fun acc c => acc * 10 + (c.toNat - 48)) 0
    let value : Int := sign * magnitude
    if value < -(2 ^ 63) ∨ 2 ^ 63 - 1 < value then none else some value

/-- Zero-pad a number below 100 to two digits (chrono's `%m %d %H %M %S`). -/
def pad2 (n : Nat) : String :=
  if n < 10 then "0" ++ toString n else toString n

/-- Zero-pad to four digits (chrono's `%Y` for years 0-9999). -/
def pad4 (n : Nat) : String :=
  if n < 10 then "000" ++ toString n
  else if n < 100 then "00" ++ toString n
  else if n < 1000 then "0" ++ toString n
  else toString n

/-- chrono's `%Y`: zero-padded to four digits, signed outside 0-9999. -/
def formatYear (y : Int) : String :=
  if y < 0 then "-" ++ pad4 (-y).toNat
  else if 9999 < y then "+" ++ toString y
  else pad4 y.toNat

/-- Proleptic-Gregorian date of a day number relative to 1970-01-01 (the
civil-from-days computation inside chrono's date handling), as
(year, month, day). -/
def civilFromDays (z0 : Int) : Int × Nat × Nat :=
  let z := z0 + 719468
  let era : Int := z.fdiv 146097
  let doe : Nat := (z - era * 146097).toNat
  let yoe : Nat := (doe - doe / 1460 + doe / 36524 - doe / 146096) / 365
  let y : Int := (yoe : Int) + era * 400
  let doy : Nat := doe - (365 * yoe + yoe / 4 - yoe / 100)
  let mp : Nat := (5 * doy + 2) / 153
  let d : Nat := doy - (153 * mp + 2) / 5 + 1
  let m : Nat := if mp < 10 then mp + 3 else mp - 9
  (if m ≤ 2 then y + 1 else y, m, d)

/-- chrono's `format("%Y-%m-%d %H:%M:%S UTC")` of the UTC date-time at `ts`
Unix seconds (github.rs line 186), via the proleptic-Gregorian calendar. -/
def formatTimestampUTC (ts : Int) : String :=
  let days : Int := ts.fdiv 86400
  let sod : Nat := (ts - 86400 * days).toNat
  let ymd := civilFromDays days
  formatYear ymd.1 ++ "-" ++ pad2 ymd.2.1 ++ "-" ++ pad2 ymd.2.2 ++ " "
    ++ pad2 (sod / 3600) ++ ":" ++ pad2 (sod % 3600 / 60) ++ ":" ++ pad2 (sod % 60)
    ++ " UTC"

/-- The first representable second of chrono's `NaiveDateTime`:
`-262144-01-01T00:00:00` UTC (the year is packed into an `i32` with 13 flag
bits, so `MIN_YEAR = i32::MIN >> 13 = -262144`). -/
def chronoMinTimestamp : Int := -8334632937600

/-- The last representable second of chrono's `NaiveDateTime`:
`262143-12-31T23:59:59` UTC (`MAX_YEAR = i32::MAX >> 13 = 262143`). -/
def chronoMaxTimestamp : Int := 8210298412799

/-- `chrono::DateTime::from_timestamp(ts, 0)` is `Some` exactly when `ts`
lies in the library's representable range. -/
def chronoInRange (ts : Int) : Bool :=
  decide (chronoMinTimestamp ≤ ts) && decide (ts ≤ chronoMaxTimestamp)

/-- `GitHubClient::extract_rate_limit_reset` (github.rs lines 180-191): the
`x-ratelimit-reset` header value, when present and parseable as an `i64` Unix
timestamp, formatted as a UTC date-time string; otherwise the sentinel
`"unknown"`.  `DateTime::from_timestamp(reset_timestamp, 0)` succeeds exactly
within chrono's range; for a parseable timestamp beyond it the source's
`unwrap_or_else(|| Utc::now())` substitutes the current instant `now` before
formatting.  The header is carried as its text (a non-UTF-8 header value,
which `to_str` would also reject, is not modelled). -/
def extract_rate_limit_reset (now : Int) (reset_header : Option String) : String :=
  match reset_header with
  | some reset_str =>
    match parseI64 reset_str with
    | some reset_timestamp =>
      formatTimestampUTC (if chronoInRange reset_timestamp then reset_timestamp else now)
    | none => "unknown"
  | none => "unknown"

/-- A `serde_json::Value` as `extract_validation_error` consumes it. -/
inductive JsonValue where
  | null
  | bool (b : Bool)
  | num (n : Int)
  | str (s : String)
  | arr (items : List JsonValue)
  | obj (fields : List (String × JsonValue))

/-- `Value::get(key)` on an object. -/
def JsonValue.getKey : JsonValue → String → Option JsonValue
  | .obj fields, key => (List.find? (fun f => f.1 == key) fields).map (·.2)
  | _, _ => none

/-- `Value::as_str`. -/
def JsonValue.asStr : JsonValue → Option String
  | .str s => some s
  | _ => none

/-- `Value::as_array`. -/
def JsonValue.asArr : JsonValue → Option (List JsonValue)
  | .arr items => some items
  | _ => none

/-- `GitHubClient::extract_validation_error` (github.rs lines 194-211),
taking the outcome of `serde_json::from_str` on the error body (`none` = the
body was not JSON): prefer a top-level string `message`, else join all
`errors[].message` strings with `", "`, else `"Invalid query format"`. -/
def extract_validation_error (error_json : Option JsonValue) : String :=
  match error_json with
  | some json =>
    match (json.getKey "message").bind JsonValue.asStr with
    | some message => message
    | none =>
      match (json.getKey "errors").bind JsonValue.asArr with
      | some errors =>
        let error_messages :=
          errors.filterMap (fun e => (e.getKey "message").bind JsonValue.asStr)
        if !error_messages.isEmpty then String.intercalate ", " error_messages
        else "Invalid query format"
      | none => "Invalid query format"
  | none => "Invalid query format"

/-- One HTTP response as the retry loop observes it: the status code, the
`x-ratelimit-reset` header, the body decoded as `SearchResponse` (200 path),
the body parsed as a JSON value (422 path) and the raw body text (other
error paths). -/
structure HttpResponse where
  status : Nat
  rate_limit_reset_header : Option String
  search_body : Option SearchResponse
  json_body : Option JsonValue
  text_body : String

/-- Binary digit count of `n` (`bitlen 0 = 0`, `bitlen 1 = 1`,
`bitlen 2 = bitlen 3 = 2`, …), by fuelled structural recursion: fuel `n`
always suffices since the argument halves each step. -/
def bitlenFuel : Nat → Nat → Nat
  | 0, _ => 0
  | fuel + 1, n => if n = 0 then 0 else bitlenFuel fuel (n / 2) + 1

/-- Binary digit count: `2 ^ (bitlen n - 1) ≤ n < 2 ^ bitlen n` for `n ≥ 1`. -/
def bitlen (n : Nat) : Nat := bitlenFuel n n

/-- `num / den` rounded to the nearest integer, ties to even (`den ≥ 1`). -/
def rdivTiesEven (num den : Nat) : Nat :=
  let q := num / den
  let r := num % den
  if 2 * r < den then q
  else if den < 2 * r then q + 1
  else if q % 2 = 0 then q else q + 1

/-- `⌊log₂ (num / den)⌋` for positive `num`, `den`.  For `num ≥ den` this is
`bitlen (num / den) - 1`; for `num < den` it is `-c` with
`2^(c-1) < den/num ≤ 2^c`, the boundary case `den = num · 2^(c-1)` (the
value an exact power of two) giving `-(c-1)`. -/
def ratLog2Floor (num den : Nat) : Int :=
  if den ≤ num then (bitlen (num / den) : Int) - 1
  else
    let c := bitlen (den / num)
    if den = num * 2 ^ (c - 1) then -((c : Int) - 1) else -(c : Int)

/-- Round the positive rational `num / den` to the binary64 grid — 53-bit
significand, round to nearest, ties to even — returned as `(sig, E)` with
value `sig · 2^E` and `2^52 ≤ sig ≤ 2^53`.  The exponent is left unbounded:
overflow and subnormal flushing are indistinguishable from this unbounded
grid once the consumer truncates into `u64` with saturation
(`f64ToU64sat`). -/
def roundF64pos (num den : Nat) : Nat × Int :=
  let E : Int := ratLog2Floor num den - 52
  if 0 ≤ E then (rdivTiesEven num (den * 2 ^ E.toNat), E)
  else (rdivTiesEven (num * 2 ^ (-E).toNat) den, E)

/-- Rust's `b as f64` for `b : u64`: round to nearest binary64, ties to
even — the identity for `b ≤ 2^53`. -/
def u64ToF64 (b : Nat) : Nat :=
  if b < 2 ^ 53 then b
  else (roundF64pos b 1).1 * 2 ^ (roundF64pos b 1).2.toNat

/-- Rust's `v as u64` for a positive binary64 value `sig · 2^E`: truncate
toward zero, saturating at `u64::MAX` (the same result the program reaches
through rounding-to-infinity followed by casting infinity). -/
def f64ToU64sat (p : Nat × Int) : Nat :=
  if 0 ≤ p.2 then
    if 2 ^ 64 ≤ p.1 * 2 ^ p.2.toNat then 2 ^ 64 - 1 else p.1 * 2 ^ p.2.toNat
  else p.1 / 2 ^ (-p.2).toNat

/-- Rust's `(b as f64 * m) as u64` (github.rs line 158) for `b : u64` and a
finite `f64` multiplier of exact rational value `m` (every finite `f64` is
such a rational; for a `ℚ` not exactly a binary64 the same rounding extends
naturally): `b` is rounded to binary64 ties-to-even, multiplied exactly and
the product rounded to binary64 ties-to-even, then truncated toward zero
into `u64` with saturation; a non-positive product casts to 0. -/
def rustF64MulToU64 (b : Nat) (m : ℚ) : Nat :=
  if b = 0 ∨ m.num ≤ 0 then 0
  else f64ToU64sat (roundF64pos (u64ToF64 b * m.num.toNat) m.den)

/-- The backoff update of the retry loop (github.rs lines 158-159):
`backoff_ms = ((backoff_ms as f64 * multiplier) as u64).min(max_backoff_ms)`,
the `f64` round trip modelled bit-faithfully by `rustF64MulToU64`. -/
def nextBackoff (config : RateLimitConfig) (backoff_ms : Nat) : Nat :=
  min (rustF64MulToU64 backoff_ms config.backoff_multiplier) config.max_backoff_ms

/-- The retry loop of `search_repositories_with_config` (github.rs lines
125-176), with the transport as an oracle giving attempt `k`'s response.
200 succeeds; 403/429 retries with exponential backoff until the attempts
already made reach `max_retries`, then fails with `RateLimit` carrying the
extracted reset time (`now` is the instant `Utc::now()` would observe if the
out-of-range fallback fires there); 401, 422 and every other status fail
immediately.  The backoff sleep changes no observable state; its duration is
analysed separately through `backoffSeq`/`attemptedDelayMs`. -/
def searchAttempts (config : RateLimitConfig) (query : String) (now : Int)
    (responses : Nat → HttpResponse) (attempt backoff_ms : Nat) :
    Except AppError SearchResponse :=
  let response := responses attempt
  if response.status == 200 then
    match response.search_body with
    | some search_response => .ok search_response
    | none => .error (.Http "error decoding response body")
  else if response.status == 403 || response.status == 429 then
    if h : config.max_retries ≤ attempt then
      .error (.RateLimit (extract_rate_limit_reset now response.rate_limit_reset_header))
    else
      searchAttempts config query now responses (attempt + 1) (nextBackoff config backoff_ms)
  else if response.status == 401 then
    .error (.Authentication "Invalid or expired GitHub token")
  else if response.status == 422 then
    .error (.InvalidQuery query (extract_validation_error response.json_body))
  else
    .error (.GitHubApi ("HTTP " ++ toString response.status ++ ": " ++ response.text_body))
termination_by config.max_retries - attempt
decreasing_by omega

/-- The applied `per_page` (github.rs line 117):
`per_page.unwrap_or(30).clamp(1, 100)` on `u32`. -/
def appliedPerPage (per_page : Option Nat) : Nat :=
  min (max (per_page.getD 30) 1) 100

/-- The applied `page` (github.rs line 118): `page.unwrap_or(1).max(1)` on
`u32`. -/
def appliedPage (page : Option Nat) : Nat :=
  max (page.getD 1) 1

/-- `GitHubClient::search_repositories_with_config` (github.rs lines
106-177): an empty query fails immediately with `InvalidQuery` (no request is
sent); otherwise `per_page`/`page` are silently corrected into range, the
request parametrised by them goes to the transport oracle and the retry loop
runs from attempt 0 with the initial backoff. -/
def search_repositories_with_config (client : GitHubClient) (query : String)
    (per_page page : Option Nat) (config : RateLimitConfig) (now : Int)
    (transport : Nat → Nat → Nat → HttpResponse) : Except AppError SearchResponse :=
  if query.isEmpty then
    .error (.InvalidQuery query "Query cannot be empty")
  else
    searchAttempts config query now (transport (appliedPerPage per_page) (appliedPage page))
      0 config.initial_backoff_ms

/-- The base backoff value before retry `n` of one call: `backoff_ms` starts
at `initial_backoff_ms` (github.rs line 123) and steps by `nextBackoff` after
each rate-limited attempt. -/
def backoffSeq (config : RateLimitConfig) : Nat → Nat
  | 0 => config.initial_backoff_ms
  | n + 1 => nextBackoff config (backoffSeq config n)

/-- The slept delay of retry `n` (github.rs lines 153-156):
`backoff_ms + jitter` with `jitter = fastrand::u64(0..=backoff_ms / 4)`, the
draw passed in as an oracle. -/
def attemptedDelayMs (config : RateLimitConfig) (jitter : Nat → Nat) (n : Nat) : Nat :=
  backoffSeq config n + jitter n

/-! ## `src/main.rs` -/

/-- The `Err` arm of the search match in `execute_search_workflow` (main.rs
lines 264-279): mark the metadata failed with the error's display text and
the search duration, report the failure to the progress sink, attempt the
best-effort save of the failed metadata — whose outcome `save_result` is the
effect of `db_manager.save_query_metadata` — reporting a save failure only as
a progress warning, and return the original search error.  Result: the saved
metadata value, the progress sink's messages, and the call's return value. -/
def searchFailureBranch (query_metadata : QueryMetadata) (error : AppError)
    (search_duration_ms : Int) (save_result : Except AppError Unit)
    (progress : List String) : QueryMetadata × List String × Except AppError Unit :=
  let query_metadata := query_metadata.mark_failure error.toMessage search_duration_ms
  let progress := progress ++ ["Search failed: " ++ error.toMessage]
  let progress :=
    match save_result with
    | .error save_error =>
        progress ++ ["Failed to save query metadata: " ++ save_error.toMessage]
    | .ok _ => progress
  (query_metadata, progress, .error error)

/-! ## Supporting lemmas -/

theorem AppError.isValidation_iff (e : AppError) :
    e.isValidation = true ↔ ∃ field reason, e = .Validation field reason := by
  cases e <;> simp [AppError.isValidation]

/-- A failing `vcheck` chain link either produced its own `Validation` error
or passed the failure of the rest of the routine through. -/
theorem vcheck_error_cases (cond : Bool) (field reason : String)
    (rest : Except AppError Unit) (e : AppError)
    (h : vcheck cond field reason rest = .error e) :
    e = .Validation field reason ∨ rest = .error e := by
  unfold vcheck at h
  split at h
  · left
    injection h with h
    exact h.symm
  · exact Or.inr h

theorem RepositoryOwner.validate_owner_error_isValidation (o : RepositoryOwner) (e : AppError)
    (h : o.validate = .error e) : e.isValidation = true := by
  unfold RepositoryOwner.validate at h
  iterate 5 ((rcases vcheck_error_cases _ _ _ _ _ h with rfl | h) <;> try rfl)
  cases h

theorem RepositoryLicense.validate_license_error_isValidation (l : RepositoryLicense) (e : AppError)
    (h : l.validate = .error e) : e.isValidation = true := by
  unfold RepositoryLicense.validate at h
  iterate 2 ((rcases vcheck_error_cases _ _ _ _ _ h with rfl | h) <;> try rfl)
  cases h

/-- Every failure of `Repository::validate` is a `Validation` error: the
routine and the owner/license sub-routines only ever construct that
variant. -/
theorem Repository.validate_repo_error_isValidation (r : Repository) (e : AppError)
    (h : r.validate = .error e) : e.isValidation = true := by
  unfold Repository.validate at h
  iterate 16 ((rcases vcheck_error_cases _ _ _ _ _ h with rfl | h) <;> try rfl)
  split at h
  next eo heq =>
    injection h with h
    subst h
    exact RepositoryOwner.validate_owner_error_isValidation r.owner _ heq
  next u heq =>
    split at h
    next lic hlic =>
      split at h
      next el hl =>
        injection h with h
        subst h
        exact RepositoryLicense.validate_license_error_isValidation lic _ hl
      next ul hl => cases h
    next hlic => cases h

/-- When some record of the batch fails validation, the transaction loop
aborts with a `Validation` error (the first invalid record's). -/
theorem insertLoop_error_of_invalid (now : Int) (repos : List Repository) :
    ∀ tx count, (∃ r ∈ repos, ∃ e, r.validate = .error e) →
      ∃ e', insertLoop now tx count repos = .error e' ∧ e'.isValidation = true := by
  induction repos with
  | nil =>
    rintro tx count ⟨r, hr, _⟩
    cases hr
  | cons head tail ih =>
    rintro tx count ⟨r, hr, e, he⟩
    rcases hhead : head.validate with e0 | u
    · exact ⟨e0, by simp [insertLoop, hhead],
        Repository.validate_repo_error_isValidation head e0 hhead⟩
    · rcases List.mem_cons.mp hr with rfl | htail
      · rw [hhead] at he
        cases he
      · obtain ⟨e', hloop, hval⟩ :=
          ih (applyUpsert now head tx) (count + 1) ⟨r, htail, e, he⟩
        exact ⟨e', by simp [insertLoop, hhead, hloop], hval⟩

/-! ## The claims -/

/-- C1.  For every table state and batch, if any repository of the batch
fails validation then `insert_repositories` returns a `Validation` error and
commits nothing: the table after the failed call is exactly the table before
it (the transaction is dropped without commit). -/
theorem insert_repositories_invalid_batch_is_atomic (now : Int) (table : List RepoRow)
    (repositories : List Repository) (r : Repository) (hr : r ∈ repositories)
    (e : AppError) (he : r.validate = .error e) :
    (insert_repositories now table repositories).1 = table ∧
    ∃ field reason,
      (insert_repositories now table repositories).2 =
        .error (.Validation field reason) := by
  have hne : repositories.isEmpty = false := by
    cases repositories
    · cases hr
    · rfl
  obtain ⟨e', hloop, hval⟩ :=
    insertLoop_error_of_invalid now repositories table 0 ⟨r, hr, e, he⟩
  obtain ⟨field, reason, rfl⟩ := (AppError.isValidation_iff e').mp hval
  refine ⟨?_, field, reason, ?_⟩ <;> simp [insert_repositories, hne, hloop]

/-- The valid sample owner used by the concrete witnesses. -/
def sampleOwner : RepositoryOwner where
  id := 7
  login := "alice"
  owner_type := "User"
  avatar_url := "https://github.com/img/alice.png"
  html_url := "https://github.com/alice"
  site_admin := false

/-- The valid sample repository `A(id=1, star=10)` of the spec's upsert
example. -/
def sampleRepoA : Repository where
  id := 1
  full_name := "alice/alpha"
  name := "alpha"
  description := none
  html_url := "https://github.com/alice/alpha"
  clone_url := "https://github.com/alice/alpha.git"
  ssh_url := "git@github.com:alice/alpha.git"
  size := 12
  stargazers_count := 10
  watchers_count := 3
  forks_count := 2
  open_issues_count := 1
  language := some "Rust"
  default_branch := "main"
  visibility := "public"
  isPrivate := false
  fork := false
  archived := false
  disabled := false
  created_at := 1600000000
  updated_at := 1650000000
  pushed_at := some 1650000001
  owner := sampleOwner
  license := none
  topics := ["cli"]
  has_issues := true
  has_projects := true
  has_wiki := true
  has_pages := false
  has_downloads := true

/-- The valid sample repository `B(id=2, star=20)` with a distinct owner. -/
def sampleRepoB : Repository :=
  { sampleRepoA with
    id := 2
    full_name := "bob/beta"
    name := "beta"
    html_url := "https://github.com/bob/beta"
    clone_url := "https://github.com/bob/beta.git"
    ssh_url := "git@github.com:bob/beta.git"
    stargazers_count := 20
    owner := { sampleOwner with id := 8, login := "bob", html_url := "https://github.com/bob" } }

/-- The re-upserted record `A(id=1, star=99)` of the spec's example. -/
def sampleRepoA99 : Repository :=
  { sampleRepoA with stargazers_count := 99, updated_at := 1660000000 }

/-- A record failing validation: empty `full_name`. -/
def invalidRepo : Repository :=
  { sampleRepoA with full_name := "" }

/-- The table state after upserting `[A(id=1, star=10), B(id=2, star=20)]`
into a fresh table at time 50. -/
def sampleTableAB : List RepoRow :=
  (insert_repositories 50 [] [sampleRepoA, sampleRepoB]).1

/-- Witness for C1: a concrete batch holding one valid record and one with an
empty `fullName` fails with a `Validation` error and leaves the (empty) table
unchanged. -/
theorem insert_repositories_invalid_batch_is_atomic_witness :
    invalidRepo ∈ [sampleRepoA, invalidRepo] ∧
    invalidRepo.validate = .error (.Validation "full_name" "cannot be empty") ∧
    ((insert_repositories 0 [] [sampleRepoA, invalidRepo]).1 = [] ∧
      ∃ field reason,
        (insert_repositories 0 [] [sampleRepoA, invalidRepo]).2 =
          .error (.Validation field reason)) :=
  ⟨by decide, by decide,
    insert_repositories_invalid_batch_is_atomic 0 [] [sampleRepoA, invalidRepo]
      invalidRepo (by decide) (.Validation "full_name" "cannot be empty") (by decide)⟩

/-- C2.  Upserts are keyed by the natural id `github_id`: re-upserting a
valid record whose id is already stored updates that row's mutable columns in
place (stars, full name, `updated_at`, the refreshed `fetched_at`), creates
no duplicate row (the row count — and hence `totalRepositories` of the
computed statistics — is unchanged), and the re-insert still counts as one
affected row in the returned count. -/
theorem insert_repositories_upsert_by_natural_id (now : Int) (table : List RepoRow)
    (repo : Repository) (hvalid : repo.validate = .ok ()) (row : RepoRow)
    (hrow : row ∈ table) (hid : row.github_id = repo.id) :
    (insert_repositories now table [repo]).2 = .ok 1 ∧
    (insert_repositories now table [repo]).1.length = table.length ∧
    (∀ tn, (computeStats tn (insert_repositories now table [repo]).1).total_repositories =
      (table.length : Int)) ∧
    ∀ row' ∈ (insert_repositories now table [repo]).1, row'.github_id = repo.id →
      row'.stargazers_count = repo.stargazers_count ∧
      row'.full_name = repo.full_name ∧
      row'.updated_at = repo.updated_at ∧
      row'.fetched_at = now := by
  have hstep : insert_repositories now table [repo] = (applyUpsert now repo table, .ok 1) := by
    simp [insert_repositories, insertLoop, hvalid]
  have hany : table.any (fun row0 => row0.github_id == repo.id) = true :=
    List.any_eq_true.mpr ⟨row, hrow, by simp [hid]⟩
  have happly : applyUpsert now repo table =
      table.map (fun row0 =>
        if row0.github_id == repo.id then updateRowOnConflict now repo row0 else row0) := by
    simp [applyUpsert, hany]
  refine ⟨by rw [hstep], ?_, ?_, ?_⟩
  · rw [hstep, happly]
    simp
  · intro tn
    rw [hstep]
    simp [computeStats, happly]
  · intro row' hmem hgid
    rw [hstep] at hmem
    rw [happly] at hmem
    rcases List.mem_map.mp hmem with ⟨row0, hrow0, heq⟩
    by_cases hb : (row0.github_id == repo.id) = true
    · rw [if_pos hb] at heq
      subst heq
      simp [updateRowOnConflict]
    · rw [if_neg hb] at heq
      subst heq
      exact absurd hgid (by simpa using hb)

/-- Witness for C2: the spec's own example.  Upserting
`[A(id=1, star=10), B(id=2, star=20)]` and then re-upserting
`A(id=1, star=99)` yields an affected count of 1, keeps the row count at 2
(`totalRepositories == 2`), and the stored row for id 1 now carries 99 stars
(`maxStars == 99`). -/
theorem insert_repositories_upsert_by_natural_id_witness :
    sampleRepoA99.validate = .ok () ∧
    rowOfRepo 50 sampleRepoA ∈ sampleTableAB ∧
    (rowOfRepo 50 sampleRepoA).github_id = sampleRepoA99.id ∧
    ((insert_repositories 60 sampleTableAB [sampleRepoA99]).2 = .ok 1 ∧
      (insert_repositories 60 sampleTableAB [sampleRepoA99]).1.length = sampleTableAB.length ∧
      (∀ tn,
        (computeStats tn
          (insert_repositories 60 sampleTableAB [sampleRepoA99]).1).total_repositories =
        (sampleTableAB.length : Int)) ∧
      ∀ row' ∈ (insert_repositories 60 sampleTableAB [sampleRepoA99]).1,
        row'.github_id = sampleRepoA99.id →
        row'.stargazers_count = sampleRepoA99.stargazers_count ∧
        row'.full_name = sampleRepoA99.full_name ∧
        row'.updated_at = sampleRepoA99.updated_at ∧
        row'.fetched_at = 60) ∧
    (computeStats "repos_20240101000000"
      (insert_repositories 60 sampleTableAB [sampleRepoA99]).1).total_repositories = 2 ∧
    (computeStats "repos_20240101000000"
      (insert_repositories 60 sampleTableAB [sampleRepoA99]).1).max_stars = 99 :=
  ⟨by decide, by decide, by decide,
    insert_repositories_upsert_by_natural_id 60 sampleTableAB sampleRepoA99 (by decide)
      (rowOfRepo 50 sampleRepoA) (by decide) (by decide),
    by decide, by decide⟩

/-- C3 counterexample.  The claim says `get_table_stats` on a missing table
fails with a distinguishable `NotFound` error kind rather than a generic
database error, but the source's `AppError` has no `NotFound` variant at all
(errors.rs lines 4-47): at the concrete missing table name the call returns
`AppError::Database(sqlx::Error::RowNotFound)`, which is the generic
`Database` kind. -/
theorem get_table_stats_missing_is_generic_database_error :
    get_table_stats [] "repos_20231201120000" = .error (.Database .rowNotFound) ∧
    (AppError.Database .rowNotFound).isDatabase = true ∧
    (AppError.Database .rowNotFound).toMessage =
      "Database connection error: no rows returned by a query that expected to return at least one row" := by
  refine ⟨rfl, rfl, rfl⟩

/-- C3 (amended).  For every database state and table name with no existing
table of that name, `get_table_stats` first performs the distinct existence
check and then fails with `AppError::Database(sqlx::Error::RowNotFound)`:
the generic `Database` error variant, distinguishable from other database
failures only through the wrapped sqlx `RowNotFound` value, not through a
dedicated `NotFound` error kind. -/
theorem get_table_stats_missing_table (db : DatabaseState) (table_name : String)
    (h : tableLookup db table_name = none) :
    get_table_stats db table_name = .error (.Database .rowNotFound) ∧
    ∃ e, get_table_stats db table_name = .error e ∧ e.isDatabase = true := by
  refine ⟨?_, .Database .rowNotFound, ?_, rfl⟩ <;> simp [get_table_stats, h]

/-- Witness for C3 (amended) at a concrete database holding one unrelated
table. -/
theorem get_table_stats_missing_table_witness :
    tableLookup [("repos_20240101000000", sampleTableAB)] "repos_20231201120000" = none ∧
    (get_table_stats [("repos_20240101000000", sampleTableAB)] "repos_20231201120000" =
        .error (.Database .rowNotFound) ∧
      ∃ e, get_table_stats [("repos_20240101000000", sampleTableAB)] "repos_20231201120000" =
        .error e ∧ e.isDatabase = true) :=
  ⟨by decide,
    get_table_stats_missing_table [("repos_20240101000000", sampleTableAB)]
      "repos_20231201120000" (by decide)⟩

/-- The adversarial retry policy refuting C4 as universally stated: an
initial backoff already above `max_backoff_ms` (nothing in
`RateLimitConfig` or the loop prevents it — the cap is applied only by the
post-sleep update). -/
def oversizedInitialPolicy : RateLimitConfig where
  max_retries := 3
  initial_backoff_ms := 100000
  max_backoff_ms := 60000
  backoff_multiplier := 2

/-- C4 counterexample.  The claim quantifies over every retry policy, but for
the concrete policy `{initial=100000, mult=2.0, max=60000}` the first
attempted delay (taking the jitter draw 0, an admissible value of
`uniformRandom(0, backoff/4)`) is 100000 ms, exceeding `maxBackoff = 60000`;
the delay sequence also strictly decreases from 100000 to 60000. -/
theorem backoff_first_delay_exceeds_max_counterexample :
    attemptedDelayMs oversizedInitialPolicy (fun _ => 0) 0 = 100000 ∧
    oversizedInitialPolicy.max_backoff_ms = 60000 ∧
    ¬ attemptedDelayMs oversizedInitialPolicy (fun _ => 0) 0 ≤
        oversizedInitialPolicy.max_backoff_ms ∧
    ¬ attemptedDelayMs oversizedInitialPolicy (fun _ => 0) 0 ≤
        attemptedDelayMs oversizedInitialPolicy (fun _ => 0) 1 := by
  refine ⟨rfl, rfl, by decide, by decide⟩

theorem rdivTiesEven_ge_div (num den : Nat) : num / den ≤ rdivTiesEven num den := by
  simp only [rdivTiesEven]
  split_ifs <;> omega

theorem bitlenFuel_eq :
    ∀ f n, n ≤ f → bitlenFuel f n = if n = 0 then 0 else Nat.log2 n + 1 := by
  intro f
  induction f with
  | zero =>
    intro n hn
    have : n = 0 := by omega
    subst this
    rfl
  | succ f ih =>
    intro n hn
    by_cases h0 : n = 0
    · subst h0
      rfl
    · unfold bitlenFuel
      rw [if_neg h0, if_neg h0, ih (n / 2) (by omega)]
      by_cases h1 : n / 2 = 0
      · have hn1 : n = 1 := by omega
        subst hn1
        rw [if_pos rfl, Nat.log2]
        norm_num
      · rw [if_neg h1]
        conv_rhs => rw [Nat.log2]
        rw [if_pos (by omega)]

theorem bitlen_spec (n : Nat) (h : 1 ≤ n) : 2 ^ (bitlen n - 1) ≤ n ∧ n < 2 ^ bitlen n := by
  unfold bitlen
  rw [bitlenFuel_eq n n le_rfl, if_neg (by omega)]
  constructor
  · simpa using Nat.log2_self_le (by omega)
  · simpa using Nat.lt_log2_self

theorem ratLog2Floor_pos_spec (num den : Nat) (hd : 1 ≤ den) (hdn : den ≤ num) :
    ∃ e : Nat, ratLog2Floor num den = (e : Int) ∧
      den * 2 ^ e ≤ num ∧ num < den * 2 ^ (e + 1) := by
  have hq1 : 1 ≤ num / den := (Nat.one_le_div_iff (by omega)).mpr hdn
  obtain ⟨hlow, hhigh⟩ := bitlen_spec (num / den) hq1
  have hbl1 : 1 ≤ bitlen (num / den) := by
    by_contra hc
    push_neg at hc
    have hbl0 : bitlen (num / den) = 0 := by omega
    rw [hbl0] at hhigh
    omega
  refine ⟨bitlen (num / den) - 1, ?_, ?_, ?_⟩
  · unfold ratLog2Floor
    rw [if_pos hdn]
    omega
  · calc den * 2 ^ (bitlen (num / den) - 1) ≤ den * (num / den) :=
        Nat.mul_le_mul_left den hlow
    _ ≤ num := Nat.mul_div_le num den
  · have heq : bitlen (num / den) - 1 + 1 = bitlen (num / den) := by omega
    rw [heq, mul_comm]
    exact (Nat.div_lt_iff_lt_mul (by omega)).mp hhigh

/-- Core growth fact about the rounding pipeline: truncating the rounded
value of `num / den` back into `u64` cannot fall below any 53-bit integer
`b` with `b · den ≤ num` — the rounded value sits on or above the largest
grid point below `num / den`, which is at least `b`. -/
theorem le_f64ToU64sat_roundF64pos (b num den : Nat) (hb1 : 1 ≤ b) (hb : b ≤ 2 ^ 53)
    (hd : 1 ≤ den) (hval : b * den ≤ num) : b ≤ f64ToU64sat (roundF64pos num den) := by
  have hdn : den ≤ num := le_trans (Nat.le_mul_of_pos_left den hb1) hval
  obtain ⟨e, hE0, hlow, hhigh⟩ := ratLog2Floor_pos_spec num den hd hdn
  have hbq : b ≤ num / den := (Nat.le_div_iff_mul_le (by omega)).mpr hval
  simp only [roundF64pos, f64ToU64sat, hE0]
  rcases Nat.lt_or_ge e 52 with he | he
  · have hEneg : ¬ (0 : Int) ≤ (e : Int) - 52 := by omega
    rw [if_neg hEneg]
    simp only [if_neg hEneg]
    have hk : (-((e : Int) - 52)).toNat = 52 - e := by omega
    rw [hk]
    have h1 : num / den = num * 2 ^ (52 - e) / (den * 2 ^ (52 - e)) :=
      (Nat.mul_div_mul_right num den (by positivity)).symm
    have h2 : num * 2 ^ (52 - e) / (den * 2 ^ (52 - e)) =
        num * 2 ^ (52 - e) / den / 2 ^ (52 - e) :=
      (Nat.div_div_eq_div_mul _ _ _).symm
    have h4 : num * 2 ^ (52 - e) / den / 2 ^ (52 - e) ≤
        rdivTiesEven (num * 2 ^ (52 - e)) den / 2 ^ (52 - e) :=
      Nat.div_le_div_right (rdivTiesEven_ge_div _ _)
    omega
  · have hEpos : (0 : Int) ≤ (e : Int) - 52 := by omega
    rw [if_pos hEpos]
    simp only [if_pos hEpos]
    have hk : ((e : Int) - 52).toNat = e - 52 := by omega
    rw [hk]
    split_ifs with hsat
    · have : (2 : Nat) ^ 53 ≤ 2 ^ 64 - 1 := by norm_num
      omega
    · rcases Nat.lt_or_ge e 53 with he53 | he53
      · have he52 : e = 52 := by omega
        subst he52
        simp only [Nat.sub_self, pow_zero, mul_one]
        have := rdivTiesEven_ge_div num den
        omega
      · have hsig : 2 ^ 52 ≤ rdivTiesEven num (den * 2 ^ (e - 52)) := by
          refine le_trans ?_ (rdivTiesEven_ge_div _ _)
          rw [Nat.le_div_iff_mul_le (by positivity)]
          calc 2 ^ 52 * (den * 2 ^ (e - 52)) = den * (2 ^ 52 * 2 ^ (e - 52)) := by ring
          _ = den * 2 ^ e := by
              rw [← pow_add]
              have h52 : 52 + (e - 52) = e := by omega
              rw [h52]
          _ ≤ num := hlow
        calc b ≤ 2 ^ 53 := hb
        _ = 2 ^ 52 * 2 ^ 1 := by norm_num
        _ ≤ rdivTiesEven num (den * 2 ^ (e - 52)) * 2 ^ (e - 52) :=
            Nat.mul_le_mul hsig (Nat.pow_le_pow_right (by norm_num) (by omega))

theorem u64ToF64_eq_self (b : Nat) (hb : b ≤ 2 ^ 53) : u64ToF64 b = b := by
  rcases Nat.lt_or_ge b (2 ^ 53) with h | h
  · unfold u64ToF64
    rw [if_pos h]
  · have hb53 : b = 2 ^ 53 := by omega
    subst hb53
    decide

/-- The modelled `(b as f64 * m) as u64` never falls below `b` when `b` is
exactly representable (`b ≤ 2^53`) and the multiplier is at least 1. -/
theorem le_rustF64MulToU64 (b : Nat) (m : ℚ) (hb : b ≤ 2 ^ 53) (hm : 1 ≤ m) :
    b ≤ rustF64MulToU64 b m := by
  rcases Nat.eq_zero_or_pos b with rfl | hb1
  · exact Nat.zero_le _
  have hnumden : (m.den : Int) ≤ m.num := by
    have := (Rat.le_def).mp hm
    simpa using this
  have hdenpos : 0 < m.den := m.den_pos
  have hnumpos : 0 < m.num := by
    have : (0 : Int) < (m.den : Int) := by exact_mod_cast hdenpos
    omega
  unfold rustF64MulToU64
  rw [if_neg (by push_neg; exact ⟨by omega, by omega⟩)]
  rw [u64ToF64_eq_self b hb]
  refine le_f64ToU64sat_roundF64pos b (b * m.num.toNat) m.den hb1 hb hdenpos ?_
  refine Nat.mul_le_mul_left b ?_
  omega

/-- C4 (amended).  For every retry policy whose initial backoff does not
exceed `maxBackoff`, whose multiplier is at least 1, and whose `maxBackoff`
stays within the exactly-representable 53-bit range (every policy the
program constructs satisfies all three), the base backoff sequence of a
single call is non-decreasing, starts at `initialBackoff`, steps by
`min((backoff as f64 * multiplier) as u64, maxBackoff)` and never exceeds
`maxBackoff`; each attempted delay adds a jitter drawn from `[0, backoff/4]`
to the base value, so it is bounded by `maxBackoff + maxBackoff/4` rather
than by `maxBackoff` itself. -/
theorem backoff_sequence_monotone_and_capped (config : RateLimitConfig)
    (hinit : config.initial_backoff_ms ≤ config.max_backoff_ms)
    (hmult : 1 ≤ config.backoff_multiplier)
    (hmax53 : config.max_backoff_ms ≤ 2 ^ 53) (n : Nat) :
    backoffSeq config n ≤ backoffSeq config (n + 1) ∧
    backoffSeq config n ≤ config.max_backoff_ms ∧
    ∀ jitter : Nat → Nat, (∀ k, jitter k ≤ backoffSeq config k / 4) →
      backoffSeq config n ≤ attemptedDelayMs config jitter n ∧
      attemptedDelayMs config jitter n ≤
        config.max_backoff_ms + config.max_backoff_ms / 4 := by
  have hgrow : ∀ b : Nat, b ≤ config.max_backoff_ms → b ≤ nextBackoff config b := by
    intro b hb
    unfold nextBackoff
    exact Nat.le_min.mpr
      ⟨le_rustF64MulToU64 b config.backoff_multiplier (le_trans hb hmax53) hmult, hb⟩
  have hbound : ∀ m, backoffSeq config m ≤ config.max_backoff_ms := by
    intro m
    induction m with
    | zero => exact hinit
    | succ k ih => exact Nat.min_le_right _ _
  refine ⟨?_, hbound n, ?_⟩
  · exact hgrow (backoffSeq config n) (hbound n)
  · intro jitter hj
    refine ⟨Nat.le_add_right _ _, ?_⟩
    have h1 := hbound n
    have h2 := hj n
    have h3 : backoffSeq config n / 4 ≤ config.max_backoff_ms / 4 :=
      Nat.div_le_div_right h1
    unfold attemptedDelayMs
    omega

/-- Witness for C4 (amended): the default policy
`{initial=1000, mult=2.0, max=60000}` satisfies both hypotheses, and with the
jitter draws all 0 its attempted delays are exactly
1000, 2000, 4000, 8000, 16000, 32000, then capped at 60000. -/
theorem backoff_sequence_monotone_and_capped_witness :
    RateLimitConfig.default.initial_backoff_ms ≤ RateLimitConfig.default.max_backoff_ms ∧
    (1 : ℚ) ≤ RateLimitConfig.default.backoff_multiplier ∧
    RateLimitConfig.default.max_backoff_ms ≤ 2 ^ 53 ∧
    (backoffSeq RateLimitConfig.default 5 ≤ backoffSeq RateLimitConfig.default 6 ∧
      backoffSeq RateLimitConfig.default 5 ≤ RateLimitConfig.default.max_backoff_ms ∧
      ∀ jitter : Nat → Nat, (∀ k, jitter k ≤ backoffSeq RateLimitConfig.default k / 4) →
        backoffSeq RateLimitConfig.default 5 ≤ attemptedDelayMs RateLimitConfig.default jitter 5 ∧
        attemptedDelayMs RateLimitConfig.default jitter 5 ≤
          RateLimitConfig.default.max_backoff_ms + RateLimitConfig.default.max_backoff_ms / 4) ∧
    (List.range 8).map (attemptedDelayMs RateLimitConfig.default (fun _ => 0)) =
      [1000, 2000, 4000, 8000, 16000, 32000, 60000, 60000] :=
  ⟨by decide, by decide, by decide,
    backoff_sequence_monotone_and_capped RateLimitConfig.default (by decide) (by decide)
      (by decide) 5,
    by decide⟩

/-- C6.  For every state of the Unicode tables (the oracle `uniAlnum`):
`drop_table` validates the name against the allow-list (must start with the
managed prefix and contain only alphanumerics/underscore) before any SQL
exists — every name failing the check is rejected with a `Validation` error
and an empty issued-SQL list; in particular `"evil; DROP TABLE x"`,
`"no_prefix"` and `""` are so rejected (their offending characters are
ASCII, so this is oracle-independent), while `"repos_20240101000000"` is
accepted and issues exactly its `DROP TABLE IF EXISTS` statement. -/
theorem drop_table_allowlist_before_sql (uniAlnum : Char → Bool) (db : DatabaseState) :
    (∀ table_name : String,
      (!(strStartsWith table_name "repos_")
        || !(table_name.toList.all fun c => rustIsAlphanumeric uniAlnum c || c == '_'))
        = true →
      drop_table uniAlnum db table_name =
        ([], .error (.Validation "table_name" "Invalid table name format"))) ∧
    drop_table uniAlnum db "evil; DROP TABLE x" =
      ([], .error (.Validation "table_name" "Invalid table name format")) ∧
    drop_table uniAlnum db "no_prefix" =
      ([], .error (.Validation "table_name" "Invalid table name format")) ∧
    drop_table uniAlnum db "" =
      ([], .error (.Validation "table_name" "Invalid table name format")) ∧
    (drop_table uniAlnum db "repos_20240101000000").1 =
      ["DROP TABLE IF EXISTS repos_20240101000000"] ∧
    ∃ db', (drop_table uniAlnum db "repos_20240101000000").2 = .ok db' := by
  refine ⟨?_, rfl, rfl, rfl, rfl, _, rfl⟩
  intro table_name h
  simp only [drop_table, h, if_true]

/-- Witness for C6: with a concrete oracle, a name with an embedded space and
semicolon fails the allow-list and is rejected with no SQL issued, through
the general clause of the theorem. -/
theorem drop_table_allowlist_before_sql_witness :
    drop_table (fun _ => false) [("repos_20240101000000", sampleTableAB)]
      "repos_1; DROP TABLE users" =
      ([], .error (.Validation "table_name" "Invalid table name format")) :=
  (drop_table_allowlist_before_sql (fun _ => false)
      [("repos_20240101000000", sampleTableAB)]).1
    "repos_1; DROP TABLE users" (by decide)

/-- C7.  The applied `per_page` always lies in `[1, 100]` — 0 is raised to 1,
101 is clamped to 100, and an unspecified value defaults to 30 — and the
applied `page` is always at least 1, with 0 raised to 1 and an unspecified
value defaulting to 1; out-of-range values are silently corrected, never
rejected (no error path exists in these expressions). -/
theorem per_page_and_page_silently_corrected :
    (∀ per_page : Option Nat,
      1 ≤ appliedPerPage per_page ∧ appliedPerPage per_page ≤ 100) ∧
    appliedPerPage (some 0) = 1 ∧
    appliedPerPage (some 101) = 100 ∧
    appliedPerPage none = 30 ∧
    appliedPerPage (some 30) = 30 ∧
    (∀ page : Option Nat, 1 ≤ appliedPage page) ∧
    (∀ n : Nat, n < 1 → appliedPage (some n) = 1) ∧
    appliedPage none = 1 := by
  refine ⟨?_, rfl, rfl, rfl, rfl, ?_, ?_, rfl⟩
  · rintro (_ | v) <;> simp [appliedPerPage] <;> omega
  · rintro (_ | v) <;> simp [appliedPage]
  · intro n hn
    interval_cases n
    rfl

/-- Witness for C7: the general clauses applied at `perPage = 101` and
`page = 0`. -/
theorem per_page_and_page_silently_corrected_witness :
    (1 ≤ appliedPerPage (some 101) ∧ appliedPerPage (some 101) ≤ 100) ∧
    1 ≤ appliedPage (some 0) ∧
    appliedPage (some 0) = 1 :=
  ⟨per_page_and_page_silently_corrected.1 (some 101),
    per_page_and_page_silently_corrected.2.2.2.2.2.1 (some 0),
    per_page_and_page_silently_corrected.2.2.2.2.2.2.1 0 (by decide)⟩

/-- C8.  When the search step fails, the failed metadata is saved
best-effort before returning: the value returned to the caller is always
`Err` of the original search error — whatever the outcome of the save — the
metadata saved is the input marked failed with the error's display text and
the search duration, and a failing save is reported only as a progress
message. -/
theorem search_failure_returns_original_error (query_metadata : QueryMetadata)
    (error : AppError) (search_duration_ms : Int) (save_result : Except AppError Unit)
    (progress : List String) :
    (searchFailureBranch query_metadata error search_duration_ms save_result progress).2.2 =
      .error error ∧
    (searchFailureBranch query_metadata error search_duration_ms save_result progress).1 =
      query_metadata.mark_failure error.toMessage search_duration_ms ∧
    (∀ save_error, save_result = .error save_error →
      ("Failed to save query metadata: " ++ save_error.toMessage) ∈
        (searchFailureBranch query_metadata error search_duration_ms save_result progress).2.1) ∧
    ∀ save_error, (searchFailureBranch query_metadata error search_duration_ms
        save_result progress).2.2 ≠ .error save_error → error ≠ save_error := by
  refine ⟨?_, ?_, ?_, ?_⟩
  · cases save_result <;> rfl
  · cases save_result <;> rfl
  · intro save_error hsave
    subst hsave
    simp [searchFailureBranch]
  · intro save_error hne
    intro hcontra
    exact hne (by rw [hcontra]; cases save_result <;> rfl)

/-- Witness for C8: a concrete rate-limit search error with a concrete
failing save; the returned error is the search error, and the save failure
appears in the progress messages. -/
theorem search_failure_returns_original_error_witness :
    ((searchFailureBranch (QueryMetadata.new "language:rust" "repos_20240101000000" 42 100)
        (.RateLimit "unknown") 250 (.error (.Database (.other "connection lost"))) []).2.2 =
      .error (.RateLimit "unknown") ∧
      (searchFailureBranch (QueryMetadata.new "language:rust" "repos_20240101000000" 42 100)
        (.RateLimit "unknown") 250 (.error (.Database (.other "connection lost"))) []).1 =
      (QueryMetadata.new "language:rust" "repos_20240101000000" 42 100).mark_failure
        (AppError.RateLimit "unknown").toMessage 250 ∧
      (∀ save_error,
        (.error (.Database (.other "connection lost")) : Except AppError Unit) =
          .error save_error →
        ("Failed to save query metadata: " ++ save_error.toMessage) ∈
          (searchFailureBranch (QueryMetadata.new "language:rust" "repos_20240101000000" 42 100)
            (.RateLimit "unknown") 250 (.error (.Database (.other "connection lost"))) []).2.1) ∧
      ∀ save_error,
        (searchFailureBranch (QueryMetadata.new "language:rust" "repos_20240101000000" 42 100)
          (.RateLimit "unknown") 250
          (.error (.Database (.other "connection lost"))) []).2.2 ≠ .error save_error →
        (.RateLimit "unknown" : AppError) ≠ save_error) :=
  search_failure_returns_original_error
    (QueryMetadata.new "language:rust" "repos_20240101000000" 42 100)
    (.RateLimit "unknown") 250 (.error (.Database (.other "connection lost"))) []

/-- C9.  `GitHubClient::new` on the empty token fails immediately with an
`Authentication` error — the check precedes the HTTP-client construction, so
no client is built and no network call is made — and on every non-empty
token succeeds with exactly that token and the default base URL. -/
theorem github_client_new_empty_token_rejected (token : String) :
    GitHubClient.new "" = .error (.Authentication "GitHub token cannot be empty") ∧
    (token.isEmpty = false →
      GitHubClient.new token =
        .ok { token := token, base_url := "https://api.github.com" }) := by
  refine ⟨rfl, ?_⟩
  intro h
  simp [GitHubClient.new, h]

/-- Witness for C9 at a concrete non-empty token. -/
theorem github_client_new_empty_token_rejected_witness :
    ("ghp_abc123" : String).isEmpty = false ∧
    GitHubClient.new "ghp_abc123" =
      .ok { token := "ghp_abc123", base_url := "https://api.github.com" } :=
  ⟨by decide, (github_client_new_empty_token_rejected "ghp_abc123").2 (by decide)⟩

/-- C10.  `mark_failure` sets `success := false`, stores the error message
and the duration, and leaves `result_count`, `id`, `search_query`,
`table_name` and `executed_at` untouched; a metadata built by `new` and then
marked failed therefore still carries `result_count = 0`. -/
theorem mark_failure_frame_conditions (self : QueryMetadata) (error_message : String)
    (duration_ms : Int) :
    (self.mark_failure error_message duration_ms).success = false ∧
    (self.mark_failure error_message duration_ms).error_message = some error_message ∧
    (self.mark_failure error_message duration_ms).duration_ms = duration_ms ∧
    (self.mark_failure error_message duration_ms).result_count = self.result_count ∧
    (self.mark_failure error_message duration_ms).id = self.id ∧
    (self.mark_failure error_message duration_ms).search_query = self.search_query ∧
    (self.mark_failure error_message duration_ms).table_name = self.table_name ∧
    (self.mark_failure error_message duration_ms).executed_at = self.executed_at ∧
    ∀ (q tn : String) (fresh_id : Nat) (now : Int),
      ((QueryMetadata.new q tn fresh_id now).mark_failure
        error_message duration_ms).result_count = 0 := by
  refine ⟨rfl, rfl, rfl, rfl, rfl, rfl, rfl, rfl, fun q tn fresh_id now => rfl⟩
